/-
  Verification of the mapping helpers of the Tangram repository
  (tangram/mapping_utils.py) against its natural-language specification.

  The Python functions `pp_adatas`, `adata_to_cluster_expression` and
  `map_cells_to_space` are shallowly embedded below.  Expression matrices
  are modelled as row-major lists of lists over the rationals (the exact
  values the numeric code manipulates; float32 rounding is elided since no
  claim here depends on rounding).  Fallible Python code is modelled with
  `Except`, with one error constructor per Python exception class that the
  code can raise.
-/
import Mathlib

namespace Tangram

/-- The storage representation of an AnnData `.X` matrix, as dispatched on
by `map_cells_to_space` (lines 174-190 of mapping_utils.py): scipy
`csc_matrix`, scipy `csr_matrix`, dense `numpy.ndarray`, or anything
else. -/
inductive XKind where
  | csc
  | csr
  | ndarray
  | other
deriving DecidableEq

/-- The Python exceptions that the embedded code can raise.  A Python
`raise ValueError(msg)` carries its message; a bare `assert e` raises
`AssertionError` with no message; attribute lookups that fail raise
`AttributeError`; missing pandas keys raise `KeyError`; `raise
NotImplementedError` (line 181/190) is bare. -/
inductive PyError where
  | valueError (msg : String)
  | notImplementedError
  | attributeError
  | assertionError
  | keyError
deriving DecidableEq

/-- The message carried by an embedded Python exception, when it has one.
Only `ValueError` is raised with a message anywhere in
mapping_utils.py; the `assert` on line 164 and the bare raises carry
none. -/
def errorMessage : PyError → Option String
  | .valueError m => some m
  | _ => none

/-- The `density_prior` argument of `map_cells_to_space`: `None` is
modelled by `Option`, the recognized strings by the first two
constructors, and a numeric vector by `explicit`. -/
inductive DensityPrior where
  | uniform
  | rnaCountBased
  | explicit (v : List ℚ)
deriving DecidableEq

/-- An AnnData object, restricted to the parts mapping_utils.py reads:
the representation tag and dense contents of `.X` (row-major: one inner
list per observation), the `var` index (column names), the
`uns["training_genes"]` entry when present, the
`obs["rna_count_based_density"]` column when present (as written by
`pp_adatas`), and the categorical `obs` columns usable as cluster
labels. -/
structure AData where
  kind : XKind
  X : List (List ℚ)
  var_names : List String
  training_genes : Option (List String)
  rna_density : Option (List ℚ)
  obs_cols : List (String × List String)
deriving DecidableEq

/-- Leftmost-first deduplication of a list, keeping the first occurrence
of each value: the order in which pandas enumerates the distinct values
of a column. -/
def uniques {α : Type} [DecidableEq α] : List α → List α
  | [] => []
  | x :: xs => x :: (uniques xs).filter (fun y => !(y == x))

/-- `series.value_counts(normalize=True)` (line 82): the distinct values
of the column, each paired with its relative frequency, sorted by
frequency in descending order (stable). -/
def value_counts_norm {α : Type} [DecidableEq α] (labels : List α) : List (α × ℚ) :=
  List.insertionSort (fun p q => q.2 ≤ p.2)
    ((uniques labels).map (fun l => (l, (labels.count l : ℚ) / (labels.length : ℚ))))

/-- Indexing a pandas value-counts series by a label (line 99,
`value_counts[i]`): the frequency paired with the label.  Every label
looked up by the source is present, so the default 0 is never hit. -/
def lookupFreq {α : Type} [DecidableEq α] (vc : List (α × ℚ)) (l : α) : ℚ :=
  ((vc.find? (fun p => p.1 == l)).map Prod.snd).getD 0

/-- Row selection `adata[adata.obs[cluster_label] == l].X` (lines 92/94):
the rows of `X` whose label equals `l`, in order. -/
def selectRows {α : Type} [DecidableEq α] (X : List (List ℚ)) (labels : List α) (l : α) :
    List (List ℚ) :=
  ((X.zip labels).filter (fun p => p.2 == l)).map Prod.fst

/-- Elementwise sum of two rows. -/
def vecAdd (v w : List ℚ) : List ℚ := List.zipWith (· + ·) v w

/-- numpy `rows.sum(axis=0)` for a stack of rows of width `n` (line 94). -/
def colSum (n : ℕ) (rows : List (List ℚ)) : List ℚ :=
  rows.foldr vecAdd (List.replicate n 0)

/-- numpy `rows.mean(axis=0)` for a stack of rows of width `n` (line 92):
the column-wise sum divided by the number of rows. -/
def colMean (n : ℕ) (rows : List (List ℚ)) : List ℚ :=
  (colSum n rows).map (fun x => x / (rows.length : ℚ))

/-- The AnnData built by `adata_to_cluster_expression`: the new `obs`
column of cluster labels (one row per cluster, in value-counts order),
the aggregated matrix `X_new`, and the `cluster_density` column when
`add_density` is set. -/
structure ClusterResult (α : Type) where
  labels : List α
  X : List (List ℚ)
  density : Option (List ℚ)

/-- `adata_to_cluster_expression` (lines 73-102), after the `obs` column
named `cluster_label` has been looked up successfully and found to hold
`labels` (one entry per row of `X`, whose rows have width `ncols`).
Mirrors the source: one output row per entry of
`value_counts(normalize=True)`; `if not scale` the row is the column-wise
mean of the member rows, else their column-wise sum; when `add_density`
the `cluster_density` column maps each cluster label to its value-counts
frequency. -/
def adata_to_cluster_expression {α : Type} [DecidableEq α] (X : List (List ℚ)) (ncols : ℕ)
    (labels : List α) (scale add_density : Bool) : ClusterResult α :=
  let vc := value_counts_norm labels
  let uls := vc.map Prod.fst
  { labels := uls
  , X := uls.map (fun l =>
      if !scale then colMean ncols (selectRows X labels l)
      else colSum ncols (selectRows X labels l))
  , density := if add_density then some (uls.map (fun l => lookupFreq vc l)) else none }

/-- Column restriction `adata[:, genes]` by gene name, producing the dense
row-major contents: each row keeps, for every requested gene, the entry
at the position of that gene in the `var` index. -/
def restrictCols (A : AData) (genes : List String) : List (List ℚ) :=
  A.X.map (fun row => genes.map (fun g => row.getD (A.var_names.indexOf g) 0))

/-- Whether every requested gene name occurs in the `var` index; AnnData
column indexing raises `KeyError` otherwise. -/
def genesPresent (A : AData) (genes : List String) : Bool :=
  genes.all (fun g => A.var_names.contains g)

/-- The Python attribute call `.toarray()` on a matrix of representation
`k`: scipy sparse matrices implement it (returning the dense contents,
here already dense `m`); a dense `numpy.ndarray` has no such attribute,
so the call raises `AttributeError`. -/
def toarrayX (k : XKind) (m : List (List ℚ)) : Except PyError (List (List ℚ)) :=
  match k with
  | .csc => .ok m
  | .csr => .ok m
  | _ => .error .attributeError

/-- Extraction of `S` (lines 174-181).  The source runs
`adata_cells[:, training_genes].X.toarray()` in BOTH the sparse branch
(line 175) and the `np.ndarray` branch (line 177); the second call hits a
dense array, which lacks `toarray`.  Any other representation raises
`NotImplementedError` (line 181). -/
def extract_S (A : AData) (genes : List String) : Except PyError (List (List ℚ)) :=
  if A.kind = .csc ∨ A.kind = .csr then
    if genesPresent A genes then toarrayX A.kind (restrictCols A genes)
    else .error .keyError
  else if A.kind = .ndarray then
    if genesPresent A genes then toarrayX A.kind (restrictCols A genes)
    else .error .keyError
  else .error .notImplementedError

/-- Extraction of `G` (lines 183-190).  In the sparse branch (line 184)
the source runs `adata_space[:, training_genes].toarray()` - `toarray`
called on the AnnData view itself, not on its `.X` - and AnnData objects
have no `toarray` attribute, so that branch raises `AttributeError`.
The `np.ndarray` branch (line 186) reads `.X` directly and succeeds.
Any other representation raises `NotImplementedError` (line 190). -/
def extract_G (A : AData) (genes : List String) : Except PyError (List (List ℚ)) :=
  if A.kind = .csc ∨ A.kind = .csr then
    if genesPresent A genes then .error .attributeError
    else .error .keyError
  else if A.kind = .ndarray then
    if genesPresent A genes then .ok (restrictCols A genes)
    else .error .keyError
  else .error .notImplementedError

/-- The check `not S.any(axis=0).all()` (line 192) for a matrix whose
rows have width `ncols`: every column must contain a nonzero entry. -/
def noAllZeroCols (m : List (List ℚ)) (ncols : ℕ) : Bool :=
  (List.range ncols).all (fun j => m.any (fun row => !(row.getD j 0 == 0)))

/-- `np.ones(n) / n` (lines 201/209): the uniform density vector. -/
def uniformDensity (n : ℕ) : List ℚ :=
  List.replicate n (1 / (n : ℚ))

/-- The density computation of `pp_adatas` (lines 62-65):
`rna_count_per_spot = X.sum(axis=1)` divided by its total. -/
def rna_count_based_density (X : List (List ℚ)) : List ℚ :=
  let counts := X.map (fun r => r.sum)
  counts.map (fun c => c / counts.sum)

/-- Everything `map_cells_to_space` hands to the `mo.Mapper` constructor
(lines 244-252) that the claims refer to: the extracted matrices, the
density vector `d`, and the four hyperparameters.  The optimizer itself
(mapping_optimizer.py) is a separate module. -/
structure MapperCall where
  S : List (List ℚ)
  G : List (List ℚ)
  d : Option (List ℚ)
  lambda_d : ℚ
  lambda_g1 : ℚ
  lambda_g2 : ℚ
  lambda_r : ℚ
deriving DecidableEq

/-- The arguments of `map_cells_to_space` that influence the embedded
behaviour, in the order of the Python signature (lines 105-124).
Arguments that only affect the external optimizer or logging
(`adata_map`, `device`, `learning_rate`, `num_epochs`, `random_state`,
`verbose`, `experiment`) are omitted. -/
structure MapArgs where
  adata_cells : AData
  adata_space : AData
  mode : String
  d : Option (List ℚ)
  cluster_label : Option String
  scale : Bool
  lambda_d : ℚ
  lambda_g1 : ℚ
  lambda_g2 : ℚ
  lambda_r : ℚ
  density_prior : Option DensityPrior
deriving DecidableEq

/-- The clusters-mode preprocessing (lines 152-155): look the cluster
column up in `obs` (a missing column raises the `ValueError` of line 84)
and replace `adata_cells` by the aggregated AnnData.  The aggregated
`.X` is the freshly built dense `X_new` array, hence kind `ndarray`; the
`uns` (and with it `training_genes`) and `var` survive (line 87), while
all previous `obs` columns are discarded (line 76). -/
def aggregateCells (A : AData) (label : String) (scale : Bool) : Except PyError AData :=
  match A.obs_cols.lookup label with
  | none => .error (.valueError "Provided label must belong to adata.obs.")
  | some labels =>
    let r := adata_to_cluster_expression A.X A.var_names.length labels scale true
    .ok { kind := XKind.ndarray
        , X := r.X
        , var_names := A.var_names
        , training_genes := A.training_genes
        , rna_density := none
        , obs_cols := [(label, r.labels)] }

/-- The reassignment of `d` (lines 203-209): in `"cells"` mode `d` is
overwritten with the resolved density prior; in `"clusters"` mode it is
overwritten with the resolved density prior, defaulting to the uniform
vector over the `G.length` spots when that is `None`.  The incoming
argument value `dArg` is shadowed before any use on both reachable
paths. -/
def choose_d (mode : String) (dArg : Option (List ℚ)) (dp : Option (List ℚ)) (n : ℕ) :
    Option (List ℚ) :=
  let d := dArg
  let d := if mode = "cells" then dp else d
  let d := if mode = "clusters" then some (dp.getD (uniformDensity n)) else d
  d

/-- Resolution of the `density_prior` argument (lines 195-201): the
string `"rna_count_based"` is replaced by the
`obs["rna_count_based_density"]` column of the spatial AnnData (a
`KeyError` if `pp_adatas` never wrote it), the string `"uniform"` by
`np.ones(G.shape[0]) / G.shape[0]`, and an explicit vector or `None`
passes through. -/
def resolveDensityPrior (space : AData) (dp : Option DensityPrior) (nSpots : ℕ) :
    Except PyError (Option (List ℚ)) :=
  match dp with
  | some .rnaCountBased =>
    match space.rna_density with
    | none => .error .keyError
    | some v => .ok (some v)
  | some .uniform => .ok (some (uniformDensity nSpots))
  | some (.explicit v) => .ok (some v)
  | none => .ok none

/-- The `adata_cells` in effect after the mode dispatch of lines
152-155: the aggregated AnnData in `"clusters"` mode (the unreachable
missing-label arm repeats the line-150 error for totality), the original
one otherwise. -/
def cellsAfterMode (args : MapArgs) : Except PyError AData :=
  if args.mode = "clusters" then
    match args.cluster_label with
    | some lab => aggregateCells args.adata_cells lab args.scale
    | none => .error (.valueError "A cluster_label must be specified if mode = clusters.")
  else .ok args.adata_cells

/-- The body of `map_cells_to_space` from line 157 on, given the
`adata_cells` in effect after the mode dispatch: the `training_genes`
checks (lines 158-166, the bare `assert` of line 164 raising a
message-less `AssertionError`), the extraction of `S` and `G` (lines
174-190), the all-zero-column check (lines 192-193), the density
resolution (lines 195-209) and the packaging of the Mapper arguments
(lines 244-252). -/
def map_post (args : MapArgs) (adata_cells : AData) : Except PyError MapperCall :=
  match adata_cells.training_genes, args.adata_space.training_genes with
  | none, _ => .error (.valueError "Missing tangram parameters. Run `pp_adatas()`.")
  | some _, none => .error (.valueError "Missing tangram parameters. Run `pp_adatas()`.")
  | some tg_cells, some tg_space =>
    if tg_space ≠ tg_cells then .error .assertionError
    else
      match extract_S adata_cells tg_cells with
      | .error e => .error e
      | .ok S =>
        match extract_G args.adata_space tg_cells with
        | .error e => .error e
        | .ok G =>
          if ¬ (noAllZeroCols S tg_cells.length ∧ noAllZeroCols G tg_cells.length) then
            .error (.valueError "Genes with all zero values detected. Run `pp_adatas()`.")
          else
            match resolveDensityPrior args.adata_space args.density_prior G.length with
            | .error e => .error e
            | .ok dp =>
              .ok { S := S
                  , G := G
                  , d := choose_d args.mode args.d dp G.length
                  , lambda_d := args.lambda_d
                  , lambda_g1 := args.lambda_g1
                  , lambda_g2 := args.lambda_g2
                  , lambda_r := args.lambda_r }

/-- Shallow embedding of `map_cells_to_space` (lines 105-252) up to and
including the construction of the `mo.Mapper`: the four argument checks
(lines 140-150), then the mode dispatch (`cellsAfterMode`) and the rest
of the body (`map_post`).  An `Except.error` models a raised exception:
the run aborts and nothing reaches the optimizer. -/
def map_cells_to_space (args : MapArgs) : Except PyError MapperCall :=
  if args.lambda_g1 = 0 then
    .error (.valueError "lambda_g1 cannot be 0.")
  else if args.density_prior ≠ none ∧ args.lambda_d = 0 then
    .error (.valueError "When density_prior is not None, lambda_d cannot be 0.")
  else if ¬ (args.mode = "clusters" ∨ args.mode = "cells") then
    .error (.valueError "Argument \"mode\" must be \"cells\" or \"clusters\"")
  else if args.mode = "clusters" ∧ args.cluster_label = none then
    .error (.valueError "A cluster_label must be specified if mode = clusters.")
  else
    match cellsAfterMode args with
    | .error e => .error e
    | .ok adata_cells => map_post args adata_cells

/-- Dot product of two vectors (`v1 @ v2`, line 278). -/
def dot (v w : List ℚ) : ℚ := (List.zipWith (· * ·) v w).sum

/-- Column `j` of a row-major matrix. -/
def column (A : List (List ℚ)) (j : ℕ) : List ℚ := A.map (fun r => r.getD j 0)

/-- numpy transposition `A.T` of a row-major matrix whose rows have width
`n`: the list of the `n` columns. -/
def transposeN (n : ℕ) (A : List (List ℚ)) : List (List ℚ) :=
  (List.range n).map (fun j => column A j)

/-- `M.T @ S` (line 274) where `M` has `nSpots`-wide rows and `S` has
`nGenes`-wide rows: row `i` of the result is the dot product of column
`i` of `M` with each column of `S`. -/
def matMulT (nSpots nGenes : ℕ) (M S : List (List ℚ)) : List (List ℚ) :=
  (transposeN nSpots M).map (fun r => (List.range nGenes).map (fun j => dot r (column S j)))

/-- The reporting loop of lines 275-278: for each pair of columns
`(v1, v2)` of `G` and of `G_predicted` (rows of their transposes), the
score `(v1 @ v2) / (norm(v1) * norm(v2))`.  The vector norm
`np.linalg.norm` is the Euclidean norm; its square root does not exist
inside ℚ, so the norm is abstracted as a parameter `nrm` - the identity
proved about these scores holds for every choice of `nrm`, in particular
for the Euclidean norm the source uses. -/
def cos_sims (nrm : List ℚ → ℚ) (nGenes : ℕ) (G Gpred : List (List ℚ)) : List ℚ :=
  (List.zip (transposeN nGenes G) (transposeN nGenes Gpred)).map
    (fun p => dot p.1 p.2 / (nrm p.1 * nrm p.2))

/-- Cosine similarity as the specification glossary defines it: the dot
product of two vectors divided by the product of their norms (the norm
abstracted exactly as in `cos_sims`). -/
def cosineSimilarity (nrm : List ℚ → ℚ) (v w : List ℚ) : ℚ :=
  dot v w / (nrm v * nrm w)

/-- The `train_genes_df` table (lines 280-282): the training genes paired
with their scores against `G_predicted = M.T @ S`, sorted by score in
descending order (`sort_values(by="train_score", ascending=False)`).
`M` is the mapping matrix returned by `mapper.train` (its rows are
`nSpots` wide); sorting permutes the rows of the table but keeps each
gene paired with its score. -/
def train_genes_df (nrm : List ℚ → ℚ) (nSpots nGenes : ℕ) (M S G : List (List ℚ))
    (genes : List String) : List (String × ℚ) :=
  List.insertionSort (fun p q => q.2 ≤ p.2)
    (genes.zip (cos_sims nrm nGenes G (matMulT nSpots nGenes M S)))

instance {ε α : Type} [DecidableEq ε] [DecidableEq α] : DecidableEq (Except ε α) :=
  fun a b =>
    match a, b with
    | .ok x, .ok y => decidable_of_iff (x = y) (by simp)
    | .error e, .error f => decidable_of_iff (e = f) (by simp)
    | .ok _, .error _ => isFalse (by simp)
    | .error _, .ok _ => isFalse (by simp)

/-- C1: matrix extraction raises `NotImplementedError` exactly on
unrecognized representations, but the claim that the three recognized
representations are extracted without error fails on the code: the
`np.ndarray` branch for `S` (line 177) calls `.toarray()` on a dense
array, and the sparse branch for `G` (line 184) calls `.toarray()` on
the AnnData view instead of its `.X`; both raise `AttributeError`.  The
six conjuncts evaluate the extraction on a one-cell, one-gene dataset in
every representation: dense `S` and sparse `G` crash, sparse `S` and
dense `G` succeed, and anything else raises `NotImplementedError`. -/
theorem extraction_attribute_error_bug :
    extract_S ⟨.ndarray, [[1]], ["g"], some ["g"], none, []⟩ ["g"] = .error .attributeError ∧
    extract_G ⟨.csr, [[1]], ["g"], some ["g"], none, []⟩ ["g"] = .error .attributeError ∧
    extract_S ⟨.csr, [[1]], ["g"], some ["g"], none, []⟩ ["g"] = .ok [[1]] ∧
    extract_G ⟨.ndarray, [[1]], ["g"], some ["g"], none, []⟩ ["g"] = .ok [[1]] ∧
    extract_S ⟨.other, [[1]], ["g"], some ["g"], none, []⟩ ["g"] = .error .notImplementedError ∧
    extract_G ⟨.other, [[1]], ["g"], some ["g"], none, []⟩ ["g"] = .error .notImplementedError :=
  ⟨rfl, rfl, rfl, rfl, rfl, rfl⟩

/-- C4: every call of `map_cells_to_space` with `lambda_g1 = 0` returns
the `ValueError` of line 141 - it is the first check performed, so no
extraction, no density resolution and no Mapper construction happens and
no mapping is produced. -/
theorem lambda_g1_zero_raises (args : MapArgs) (h : args.lambda_g1 = 0) :
    map_cells_to_space args = .error (.valueError "lambda_g1 cannot be 0.") := by
  unfold map_cells_to_space
  rw [if_pos h]

/-- Witness for C4 at a concrete call. -/
theorem lambda_g1_zero_raises_witness :
    map_cells_to_space ⟨⟨.csr, [[1]], ["g"], some ["g"], none, []⟩,
        ⟨.ndarray, [[1]], ["g"], some ["g"], none, []⟩,
        "cells", none, none, true, 0, 0, 0, 0, none⟩ =
      .error (.valueError "lambda_g1 cannot be 0.") :=
  lambda_g1_zero_raises _ rfl

/-- C5: every call of `map_cells_to_space` whose `density_prior` is not
`None` while `lambda_d = 0` returns a `ValueError` (the check of lines
143-144, or the earlier `lambda_g1` check when that one also fails), so
no training is reached and no mapping is produced. -/
theorem density_without_lambda_d_raises (args : MapArgs)
    (h1 : args.density_prior ≠ none) (h2 : args.lambda_d = 0) :
    ∃ m, map_cells_to_space args = .error (.valueError m) := by
  by_cases hg : args.lambda_g1 = 0
  · exact ⟨"lambda_g1 cannot be 0.", by unfold map_cells_to_space; rw [if_pos hg]⟩
  · refine ⟨"When density_prior is not None, lambda_d cannot be 0.", ?_⟩
    unfold map_cells_to_space
    rw [if_neg hg, if_pos ⟨h1, h2⟩]

/-- Witness for C5 at a concrete call with a `"uniform"` density prior
and `lambda_d = 0`. -/
theorem density_without_lambda_d_raises_witness :
    ∃ m, map_cells_to_space ⟨⟨.csr, [[1]], ["g"], some ["g"], none, []⟩,
        ⟨.ndarray, [[1]], ["g"], some ["g"], none, []⟩,
        "cells", none, none, true, 0, 1, 0, 0, some .uniform⟩ =
      .error (.valueError m) :=
  density_without_lambda_d_raises _ (Option.some_ne_none _) rfl

/-- C9: in clusters mode with `density_prior = None` and `lambda_d = 0`
the density/weight consistency check of lines 143-144 does not fire (it
inspects only `density_prior`), but the claim that the run then proceeds
and hands a uniform density vector to the optimizer fails on the code:
the aggregated AnnData produced by `adata_to_cluster_expression` carries
a dense `X_new`, so the `S` extraction of line 177 calls `.toarray()` on
a dense array and every clusters-mode run aborts with `AttributeError`
before any density vector is built.  Evaluated here on a two-cell,
two-cluster, one-gene dataset. -/
theorem clusters_mode_extraction_crash :
    map_cells_to_space ⟨⟨.csr, [[1], [2]], ["g"], some ["g"], none, [("cl", ["a", "b"])]⟩,
        ⟨.ndarray, [[3]], ["g"], some ["g"], none, []⟩,
        "clusters", none, some "cl", true, 0, 1, 0, 0, none⟩ =
      .error .attributeError :=
  rfl

/-- C8: the `d` argument of `map_cells_to_space` never influences the
result.  The four argument checks, the aggregation, the extraction and
the density resolution read other fields only, and lines 203-209
unconditionally overwrite `d` from the resolved `density_prior` (or the
clusters-mode uniform default) for both admissible modes before the
Mapper is constructed, so two calls identical except for `d` return the
same outcome. -/
theorem d_argument_ignored (a : MapArgs) (d₁ d₂ : Option (List ℚ)) :
    map_cells_to_space { a with d := d₁ } = map_cells_to_space { a with d := d₂ } := by
  obtain ⟨adc, ads, mode, d, label, scale, ld, lg1, lg2, lr, dp⟩ := a
  by_cases h1 : lg1 = 0
  · simp [map_cells_to_space, h1]
  by_cases h2 : dp ≠ none ∧ ld = 0
  · simp [map_cells_to_space, h1, h2]
  by_cases h3 : mode = "clusters" ∨ mode = "cells"
  case neg => simp [map_cells_to_space, h1, h2, h3]
  by_cases h4 : mode = "clusters" ∧ label = none
  · simp [map_cells_to_space, h1, h2, h3, h4]
  have hch : ∀ dpv n, choose_d mode d₁ dpv n = choose_d mode d₂ dpv n := by
    intro dpv n
    rcases h3 with hm | hm <;> simp [choose_d, hm]
  simp only [map_cells_to_space]
  rw [if_neg h1, if_neg h2, if_neg (not_not_intro h3), if_neg h4,
      if_neg h1, if_neg h2, if_neg (not_not_intro h3), if_neg h4]
  simp only [cellsAfterMode, map_post, hch]

/-- C6 counterexample: with both datasets annotated but with different
training-gene lists, `map_cells_to_space` aborts through the bare
`assert` of line 164, whose `AssertionError` carries no message - so the
abort does NOT come with a human-readable message naming the violated
precondition, contradicting the claim for the mismatch case. -/
theorem gene_mismatch_bare_assert :
    map_cells_to_space ⟨⟨.csr, [[1]], ["a"], some ["a"], none, []⟩,
        ⟨.ndarray, [[1]], ["b"], some ["b"], none, []⟩,
        "cells", none, none, true, 0, 1, 0, 0, none⟩ = .error .assertionError ∧
    errorMessage .assertionError = none :=
  ⟨rfl, rfl⟩

/-- C6 as amended: for cells-mode calls that pass the hyperparameter
checks, a missing `training_genes` annotation on either dataset aborts
before training with the descriptive `ValueError` of lines 158-162,
while annotated datasets whose training-gene lists differ abort before
training through the bare `assert` of line 164 - an `AssertionError`
without a descriptive message. -/
theorem training_genes_checks (args : MapArgs)
    (hg : args.lambda_g1 ≠ 0)
    (hd : ¬ (args.density_prior ≠ none ∧ args.lambda_d = 0))
    (hm : args.mode = "cells") :
    (args.adata_cells.training_genes = none ∨ args.adata_space.training_genes = none →
      map_cells_to_space args =
        .error (.valueError "Missing tangram parameters. Run `pp_adatas()`.")) ∧
    (∀ tc ts, args.adata_cells.training_genes = some tc →
      args.adata_space.training_genes = some ts → ts ≠ tc →
      map_cells_to_space args = .error .assertionError) := by
  obtain ⟨adc, ads, mode, d, label, scale, ld, lg1, lg2, lr, dp⟩ := args
  simp only at hg hd hm
  subst hm
  constructor
  · rintro (hc | hs)
    · simp only at hc
      simp [map_cells_to_space, cellsAfterMode, map_post, hg, hd, hc]
    · simp only at hs
      rcases hc' : adc.training_genes with _ | tc
      · simp [map_cells_to_space, cellsAfterMode, map_post, hg, hd, hc']
      · simp [map_cells_to_space, cellsAfterMode, map_post, hg, hd, hc', hs]
  · intro tc ts hc hs hne
    simp only at hc hs
    simp [map_cells_to_space, cellsAfterMode, map_post, hg, hd, hc, hs, hne]


/-- Witness for C6 as amended, exercising both conjuncts: a missing
annotation on the single-cell dataset, and a concrete mismatched pair. -/
theorem training_genes_checks_witness :
    map_cells_to_space ⟨⟨.csr, [[1]], ["a"], none, none, []⟩,
        ⟨.ndarray, [[1]], ["a"], some ["a"], none, []⟩,
        "cells", none, none, true, 0, 1, 0, 0, none⟩ =
      .error (.valueError "Missing tangram parameters. Run `pp_adatas()`.") ∧
    map_cells_to_space ⟨⟨.csr, [[1]], ["a"], some ["a"], none, []⟩,
        ⟨.ndarray, [[1]], ["b"], some ["b"], none, []⟩,
        "cells", none, none, true, 0, 1, 0, 0, none⟩ = .error .assertionError :=
  ⟨(training_genes_checks _ (by norm_num) (by simp) rfl).1 (Or.inl rfl),
   (training_genes_checks _ (by norm_num) (by simp) rfl).2 ["a"] ["b"] rfl rfl (by simp)⟩

theorem extract_G_length (A : AData) (genes : List String) (m : List (List ℚ))
    (h : extract_G A genes = .ok m) : m.length = A.X.length := by
  unfold extract_G at h
  split at h
  · split at h <;> exact absurd h (by simp)
  · split at h
    · split at h
      · simp only [Except.ok.injEq] at h
        subst h
        simp [restrictCols]
      · exact absurd h (by simp)
    · exact absurd h (by simp)

theorem map_post_ok_d (args : MapArgs) (A : AData) (c : MapperCall)
    (h : map_post args A = .ok c) :
    ∃ tg S G dpv,
      extract_S A tg = .ok S ∧
      extract_G args.adata_space tg = .ok G ∧
      resolveDensityPrior args.adata_space args.density_prior G.length = .ok dpv ∧
      c = ⟨S, G, choose_d args.mode args.d dpv G.length,
           args.lambda_d, args.lambda_g1, args.lambda_g2, args.lambda_r⟩ := by
  unfold map_post at h
  split at h
  · exact absurd h (by simp)
  · exact absurd h (by simp)
  rename_i tg_cells tg_space hAc hAs
  split at h
  · exact absurd h (by simp)
  split at h
  · exact absurd h (by simp)
  rename_i S hS
  split at h
  · exact absurd h (by simp)
  rename_i G hG
  split at h
  · exact absurd h (by simp)
  split at h
  · exact absurd h (by simp)
  rename_i dpv hdpv
  simp only [Except.ok.injEq] at h
  exact ⟨tg_cells, S, G, dpv, hS, hG, hdpv, h.symm⟩

theorem map_ok_inv (args : MapArgs) (c : MapperCall) (h : map_cells_to_space args = .ok c) :
    (args.mode = "clusters" ∨ args.mode = "cells") ∧ ∃ A, map_post args A = .ok c := by
  unfold map_cells_to_space at h
  split at h
  · exact absurd h (by simp)
  split at h
  · exact absurd h (by simp)
  split at h
  · exact absurd h (by simp)
  rename_i h3
  split at h
  · exact absurd h (by simp)
  refine ⟨not_not.mp h3, ?_⟩
  split at h
  · exact absurd h (by simp)
  · rename_i A hA
    exact ⟨A, h⟩

theorem sum_map_div (l : List ℚ) (t : ℚ) : (l.map (fun c => c / t)).sum = l.sum / t := by
  induction l with
  | nil => simp
  | cons a l ih => simp [ih, add_div]

/-- Arguments for a concrete zero-spot, zero-gene run: a single-cell
dataset with one cell and no genes (sparse), a spatial dataset with no
spots (dense), an empty shared training-gene list, and the `"uniform"`
density prior with a nonzero `lambda_d`. -/
def zeroSpotArgs : MapArgs :=
  ⟨⟨.csr, [[]], [], some [], none, []⟩, ⟨.ndarray, [], [], some [], none, []⟩,
   "cells", none, none, true, 1, 1, 0, 0, some .uniform⟩

/-- C3 counterexample: on the degenerate run `zeroSpotArgs` every check
passes (the all-zero-column check is vacuous with no genes) and the
Mapper receives the empty density vector `np.ones(0) / 0 = []`, which
sums to 0, not 1 - so the claim as stated fails when the spatial dataset
has no spots. -/
theorem density_sum_zero_spots :
    map_cells_to_space zeroSpotArgs = .ok ⟨[[]], [], some [], 1, 1, 0, 0⟩ ∧
    (([] : List ℚ).sum ≠ 1) :=
  ⟨rfl, by norm_num⟩

/-- C3 as amended: in every run of `map_cells_to_space` that reaches the
optimizer, if `density_prior` was the string `"uniform"` and the spatial
dataset has at least one spot, or it was the string `"rna_count_based"`
with the `obs` column as written by `pp_adatas` on entrywise
non-negative spatial expression of positive total, then the density
vector handed to the optimizer has length `n_spots`, is entrywise
non-negative, and sums to 1. -/
theorem density_prior_normalized (args : MapArgs) (c : MapperCall)
    (hok : map_cells_to_space args = .ok c)
    (hcase : (args.density_prior = some .uniform ∧ 1 ≤ args.adata_space.X.length)
      ∨ (args.density_prior = some .rnaCountBased
         ∧ args.adata_space.rna_density = some (rna_count_based_density args.adata_space.X)
         ∧ (∀ r ∈ args.adata_space.X, ∀ x ∈ r, 0 ≤ x)
         ∧ 0 < (args.adata_space.X.map (fun r => r.sum)).sum)) :
    ∃ l, c.d = some l ∧ l.length = args.adata_space.X.length ∧
      (∀ x ∈ l, 0 ≤ x) ∧ l.sum = 1 := by
  obtain ⟨hmode, A, hpost⟩ := map_ok_inv args c hok
  obtain ⟨tg, S, G, dpv, hS, hG, hres, hc⟩ := map_post_ok_d args A c hpost
  have hGlen : G.length = args.adata_space.X.length := extract_G_length _ _ _ hG
  have hcd : ∀ v, dpv = some v → c.d = some v := by
    intro v hv
    subst hc hv
    rcases hmode with hm | hm <;> simp [choose_d, hm]
  rcases hcase with ⟨hdp, hn⟩ | ⟨hdp, hcol, hnonneg, hpos⟩
  · rw [hdp] at hres
    simp only [resolveDensityPrior, Except.ok.injEq] at hres
    have hne : (G.length : ℚ) ≠ 0 := by
      rw [hGlen]
      have hn0 : args.adata_space.X.length ≠ 0 := by omega
      exact_mod_cast hn0
    refine ⟨uniformDensity G.length, hcd _ hres.symm, ?_, ?_, ?_⟩
    · simp [uniformDensity, hGlen]
    · intro x hx
      rw [List.eq_of_mem_replicate hx]
      positivity
    · simp [uniformDensity, List.sum_replicate, nsmul_eq_mul]
      field_simp
  · rw [hdp] at hres
    rw [resolveDensityPrior] at hres
    rw [hcol] at hres
    simp only [Except.ok.injEq] at hres
    have ht : (args.adata_space.X.map (fun r => r.sum)).sum ≠ 0 := ne_of_gt hpos
    refine ⟨rna_count_based_density args.adata_space.X, hcd _ hres.symm, ?_, ?_, ?_⟩
    · simp [rna_count_based_density]
    · intro x hx
      simp only [rna_count_based_density, List.mem_map] at hx
      obtain ⟨cx, hcx, rfl⟩ := hx
      obtain ⟨r, hr, rfl⟩ := hcx
      exact div_nonneg (List.sum_nonneg (hnonneg r hr)) (le_of_lt hpos)
    · simp only [rna_count_based_density]
      rw [sum_map_div, div_self ht]

/-- Arguments for a concrete one-cell, one-spot, one-gene run with a
`"uniform"` density prior that reaches the optimizer. -/
def uniformRunArgs : MapArgs :=
  ⟨⟨.csr, [[2]], ["g"], some ["g"], none, []⟩, ⟨.ndarray, [[3]], ["g"], some ["g"], none, []⟩,
   "cells", none, none, true, 1, 1, 0, 0, some .uniform⟩

/-- The Mapper arguments produced by `uniformRunArgs`: the density vector
handed over is the uniform vector over the single spot, `[1]`. -/
def uniformRunCall : MapperCall := ⟨[[2]], [[3]], some (uniformDensity 1), 1, 1, 0, 0⟩

/-- Witness for C3 as amended on the concrete run `uniformRunArgs`. -/
theorem density_prior_normalized_witness :
    ∃ l, uniformRunCall.d = some l ∧ l.length = uniformRunArgs.adata_space.X.length ∧
      (∀ x ∈ l, 0 ≤ x) ∧ l.sum = 1 :=
  density_prior_normalized uniformRunArgs uniformRunCall rfl
    (Or.inl ⟨rfl, by simp [uniformRunArgs]⟩)

theorem zip_get_pair {α β : Type} (l₁ : List α) (l₂ : List β) (n : ℕ) (a : α) (b : β)
    (h₁ : l₁.get? n = some a) (h₂ : l₂.get? n = some b) :
    (l₁.zip l₂).get? n = some (a, b) := by
  induction l₁ generalizing l₂ n with
  | nil => simp at h₁
  | cons x xs ih =>
    cases l₂ with
    | nil => simp at h₂
    | cons y ys =>
      cases n with
      | zero => simp_all
      | succ m => simpa using ih ys m (by simpa using h₁) (by simpa using h₂)

theorem cos_sims_get (nrm : List ℚ → ℚ) (nGenes : ℕ) (G Gp : List (List ℚ)) (g : ℕ)
    (hg : g < nGenes) :
    (cos_sims nrm nGenes G Gp).get? g =
      some (cosineSimilarity nrm (column G g) (column Gp g)) := by
  unfold cos_sims transposeN cosineSimilarity
  rw [List.zip_map', List.map_map, List.get?_map, List.get?_range hg]
  rfl

/-- C7: the train_score recorded for training gene `g` (the row of the
`train_genes_df` table carrying that gene) is the cosine similarity -
dot product over product of norms, the square root inside the Euclidean
norm abstracted as `nrm` on both sides - between column `g` of the
observed spatial matrix `G` and column `g` of the predicted matrix
`Mᵀ·S`, where `M` is the mapping matrix returned by `mapper.train`.
Membership is invariant under the descending sort of line 281, which
only permutes the rows of the table. -/
theorem train_score_is_cosine (nrm : List ℚ → ℚ) (nSpots nGenes : ℕ)
    (M S G : List (List ℚ)) (genes : List String) (g : ℕ)
    (hg : g < nGenes) (hlen : genes.length = nGenes) :
    (genes.getD g "",
      cosineSimilarity nrm (column G g) (column (matMulT nSpots nGenes M S) g))
      ∈ train_genes_df nrm nSpots nGenes M S G genes := by
  unfold train_genes_df
  rw [(List.perm_insertionSort _ _).mem_iff]
  have hgl : g < genes.length := hlen ▸ hg
  have h1 : genes.get? g = some (genes.getD g "") := by
    rw [List.get?_eq_get hgl, List.getD_eq_get genes _ hgl]
  have h2 := cos_sims_get nrm nGenes G (matMulT nSpots nGenes M S) g hg
  exact List.get?_mem (zip_get_pair _ _ _ _ _ h1 h2)

/-- Witness for C7 on a one-cell, one-spot, one-gene instance with the
list-sum standing in for the abstracted norm. -/
theorem train_score_is_cosine_witness :
    (0 < 1 ∧ (["g1"] : List String).length = 1) ∧
    ("g1", cosineSimilarity (fun v => v.sum) (column [[3]] 0)
        (column (matMulT 1 1 [[1]] [[2]]) 0))
      ∈ train_genes_df (fun v => v.sum) 1 1 [[1]] [[2]] [[3]] ["g1"] :=
  ⟨⟨by decide, rfl⟩,
   train_score_is_cosine (fun v => v.sum) 1 1 [[1]] [[2]] [[3]] ["g1"] 0 (by decide) rfl⟩

theorem mem_uniques {α : Type} [DecidableEq α] (a : α) (l : List α) :
    a ∈ uniques l ↔ a ∈ l := by
  induction l with
  | nil => simp [uniques]
  | cons x xs ih =>
    simp only [uniques, List.mem_cons, List.mem_filter, ih]
    by_cases hax : a = x
    · simp [hax]
    · simp [hax]

theorem nodup_uniques {α : Type} [DecidableEq α] (l : List α) : (uniques l).Nodup := by
  induction l with
  | nil => simp [uniques]
  | cons x xs ih =>
    rw [uniques, List.nodup_cons]
    refine ⟨?_, ih.filter _⟩
    intro hx
    simp [List.mem_filter] at hx

theorem length_eq_count_add_count {α : Type} [DecidableEq α] (A B : α) (hAB : A ≠ B)
    (l : List α) (hmem : ∀ x ∈ l, x = A ∨ x = B) :
    l.length = l.count A + l.count B := by
  induction l with
  | nil => simp
  | cons x xs ih =>
    have hx := hmem x (List.mem_cons_self x xs)
    have hxs : ∀ y ∈ xs, y = A ∨ y = B := fun y hy => hmem y (List.mem_cons_of_mem x hy)
    have := ih hxs
    rcases hx with rfl | rfl
    · simp [List.count_cons, hAB.symm, this]
      omega
    · simp [List.count_cons, hAB, this]
      omega

theorem nodup_pair_eq {α : Type} [DecidableEq α] (A B : α) (hAB : A ≠ B) (l : List α)
    (hnd : l.Nodup) (hsub : ∀ x ∈ l, x = A ∨ x = B) (hA : A ∈ l) (hB : B ∈ l) :
    l = [A, B] ∨ l = [B, A] := by
  rcases l with _ | ⟨x, _ | ⟨y, _ | ⟨z, t⟩⟩⟩
  · simp at hA
  · simp at hA hB
    exact absurd (hA.trans hB.symm) hAB
  · have hx := hsub x (by simp)
    have hy := hsub y (by simp)
    rcases hx with rfl | rfl <;> rcases hy with rfl | rfl
    · simp at hnd
    · exact Or.inl rfl
    · exact Or.inr rfl
    · simp at hnd
  · exfalso
    have hx := hsub x (by simp)
    have hy := hsub y (by simp)
    have hz := hsub z (by simp)
    simp only [List.nodup_cons, List.mem_cons] at hnd
    rcases hx with rfl | rfl <;> rcases hy with rfl | rfl <;> rcases hz with rfl | rfl <;>
      simp_all

theorem count_pos_mem {α : Type} [DecidableEq α] (a : α) (l : List α) (h : 0 < l.count a) :
    a ∈ l := by
  by_contra hmem
  rw [List.count_eq_zero_of_not_mem hmem] at h
  exact absurd h (by omega)

theorem value_counts_three_one {α : Type} [DecidableEq α] (A B : α) (labels : List α)
    (hAB : A ≠ B) (hmem : ∀ x ∈ labels, x = A ∨ x = B)
    (hA : labels.count A = 3) (hB : labels.count B = 1) :
    value_counts_norm labels = [(A, 3 / 4), (B, 1 / 4)] := by
  have hlen : labels.length = 4 := by
    rw [length_eq_count_add_count A B hAB labels hmem, hA, hB]
  have hmemA : A ∈ labels := count_pos_mem A labels (by omega)
  have hmemB : B ∈ labels := count_pos_mem B labels (by omega)
  have hu := nodup_pair_eq A B hAB (uniques labels) (nodup_uniques _)
    (fun x hx => hmem x ((mem_uniques x _).mp hx))
    ((mem_uniques A _).mpr hmemA) ((mem_uniques B _).mpr hmemB)
  rcases hu with hu | hu <;>
    simp only [value_counts_norm, hu, List.map_cons, List.map_nil, hA, hB, hlen] <;>
    norm_num [List.insertionSort, List.orderedInsert]

/-- C2: for every dataset whose cluster-label column holds exactly two
distinct values `A` (on 3 rows) and `B` (on 1 row),
`adata_to_cluster_expression` with `add_density` returns one row per
distinct label - two rows, in value-counts order `[A, B]` since pandas
sorts by descending frequency - and a `cluster_density` column holding
3/4 for cluster `A` and 1/4 for cluster `B`. -/
theorem cluster_density_three_one {α : Type} [DecidableEq α] (A B : α) (labels : List α)
    (X : List (List ℚ)) (ncols : ℕ) (scale : Bool) (hAB : A ≠ B)
    (hmem : ∀ x ∈ labels, x = A ∨ x = B)
    (hA : labels.count A = 3) (hB : labels.count B = 1) :
    (adata_to_cluster_expression X ncols labels scale true).labels = [A, B] ∧
    (adata_to_cluster_expression X ncols labels scale true).X.length = 2 ∧
    (adata_to_cluster_expression X ncols labels scale true).density =
      some [3 / 4, 1 / 4] := by
  have hvc := value_counts_three_one A B labels hAB hmem hA hB
  refine ⟨?_, ?_, ?_⟩ <;>
    simp [adata_to_cluster_expression, hvc, lookupFreq, hAB, hAB.symm]

/-- Witness for C2 on the dataset with label column `[0, 0, 0, 1]`. -/
theorem cluster_density_three_one_witness :
    (adata_to_cluster_expression [[1], [2], [3], [4]] 1 ([0, 0, 0, 1] : List ℕ)
      true true).labels = [0, 1] ∧
    (adata_to_cluster_expression [[1], [2], [3], [4]] 1 ([0, 0, 0, 1] : List ℕ)
      true true).X.length = 2 ∧
    (adata_to_cluster_expression [[1], [2], [3], [4]] 1 ([0, 0, 0, 1] : List ℕ)
      true true).density = some [3 / 4, 1 / 4] :=
  cluster_density_three_one 0 1 [0, 0, 0, 1] [[1], [2], [3], [4]] 1 true
    (by decide) (by decide) (by decide) (by decide)

theorem vecAdd_getD (v w : List ℚ) (j : ℕ) (hv : j < v.length) (hw : j < w.length) :
    (vecAdd v w).getD j 0 = v.getD j 0 + w.getD j 0 := by
  induction v generalizing w j with
  | nil => simp at hv
  | cons a v ih =>
    cases w with
    | nil => simp at hw
    | cons b w =>
      cases j with
      | zero => simp [vecAdd]
      | succ m =>
        simp only [vecAdd, List.zipWith_cons_cons, List.getD_cons_succ]
        exact ih w m (by simpa using hv) (by simpa using hw)

theorem vecAdd_length (v w : List ℚ) : (vecAdd v w).length = min v.length w.length := by
  simp [vecAdd]

theorem colSum_length (n : ℕ) (rows : List (List ℚ)) (hW : ∀ r ∈ rows, r.length = n) :
    (colSum n rows).length = n := by
  induction rows with
  | nil => simp [colSum]
  | cons r rows ih =>
    have h1 := hW r (by simp)
    have h2 := ih (fun s hs => hW s (by simp [hs]))
    show (vecAdd r (colSum n rows)).length = n
    rw [vecAdd_length, h1, h2, min_self]

theorem colSum_getD (n : ℕ) (rows : List (List ℚ)) (j : ℕ)
    (hW : ∀ r ∈ rows, r.length = n) (hj : j < n) :
    (colSum n rows).getD j 0 = (rows.map (fun r => r.getD j 0)).sum := by
  induction rows with
  | nil =>
    show (List.replicate n (0 : ℚ)).getD j 0 = _
    rw [List.getD_eq_getElem _ _ (by simpa using hj), List.getElem_replicate]
    simp
  | cons r rows ih =>
    have h1 : j < r.length := by rw [hW r (by simp)]; exact hj
    have h2 : j < (colSum n rows).length := by
      rw [colSum_length n rows (fun s hs => hW s (by simp [hs]))]
      exact hj
    show (vecAdd r (colSum n rows)).getD j 0 = _
    rw [vecAdd_getD _ _ _ h1 h2, ih (fun s hs => hW s (by simp [hs]))]
    simp

theorem selectRows_subset {α : Type} [DecidableEq α] (X : List (List ℚ)) (labels : List α)
    (l : α) (r : List ℚ) (hr : r ∈ selectRows X labels l) : r ∈ X := by
  simp only [selectRows, List.mem_map, List.mem_filter] at hr
  obtain ⟨⟨a, b⟩, ⟨hab, _⟩, rfl⟩ := hr
  exact (List.of_mem_zip hab).1

theorem cluster_row_entry {α : Type} [DecidableEq α] (X : List (List ℚ))
    (ncols : ℕ) (labels : List α) (ad : Bool) (hW : ∀ r ∈ X, r.length = ncols)
    (i j : ℕ) (hi : i < (value_counts_norm labels).length) (hj : j < ncols) :
    (((adata_to_cluster_expression X ncols labels true ad).X.getD i []).getD j 0 =
      ((selectRows X labels ((value_counts_norm labels).get ⟨i, hi⟩).1).map
        (fun r => r.getD j 0)).sum) ∧
    (((adata_to_cluster_expression X ncols labels false ad).X.getD i []).getD j 0 =
      ((selectRows X labels ((value_counts_norm labels).get ⟨i, hi⟩).1).map
        (fun r => r.getD j 0)).sum /
      ((selectRows X labels ((value_counts_norm labels).get ⟨i, hi⟩).1).length : ℚ)) := by
  set l := ((value_counts_norm labels).get ⟨i, hi⟩).1 with hl
  have hWs : ∀ r ∈ selectRows X labels l, r.length = ncols :=
    fun r hr => hW r (selectRows_subset X labels l r hr)
  have hcl : (colSum ncols (selectRows X labels l)).length = ncols :=
    colSum_length _ _ hWs
  have hXt : (adata_to_cluster_expression X ncols labels true ad).X.getD i [] =
      colSum ncols (selectRows X labels l) := by
    show (((value_counts_norm labels).map Prod.fst).map (fun l =>
      if !true then colMean ncols (selectRows X labels l)
      else colSum ncols (selectRows X labels l))).getD i [] = _
    rw [List.getD_eq_getElem _ _ (by simpa using hi)]
    simp [hl, List.get_eq_getElem]
  have hXf : (adata_to_cluster_expression X ncols labels false ad).X.getD i [] =
      colMean ncols (selectRows X labels l) := by
    show (((value_counts_norm labels).map Prod.fst).map (fun l =>
      if !false then colMean ncols (selectRows X labels l)
      else colSum ncols (selectRows X labels l))).getD i [] = _
    rw [List.getD_eq_getElem _ _ (by simpa using hi)]
    simp [hl, List.get_eq_getElem]
  constructor
  · rw [hXt, colSum_getD ncols _ j hWs hj]
  · rw [hXf]
    have hsum := colSum_getD ncols (selectRows X labels l) j hWs hj
    rw [List.getD_eq_getElem _ _ (by rw [hcl]; exact hj)] at hsum
    simp only [colMean]
    rw [List.getD_eq_getElem _ _ (by simpa [hcl] using hj), List.getElem_map, hsum]

/-- C10: in `adata_to_cluster_expression`, with `scale = true` (the
default, and the value cluster mode passes through) every entry of a
cluster row of the aggregated matrix is the column-wise SUM of the
member rows of that cluster; the column-wise average promised by the
docstring is computed only with `scale = false` (each entry then being
the sum divided by the number of member rows).  `l` is the label of the
`i`-th cluster row (the `i`-th entry of the value-counts series). -/
theorem scale_true_sums_false_averages {α : Type} [DecidableEq α] (X : List (List ℚ))
    (ncols : ℕ) (labels : List α) (ad : Bool) (hW : ∀ r ∈ X, r.length = ncols)
    (i j : ℕ) (l : α) (f : ℚ)
    (hvc : (value_counts_norm labels).get? i = some (l, f)) (hj : j < ncols) :
    (((adata_to_cluster_expression X ncols labels true ad).X.getD i []).getD j 0 =
      ((selectRows X labels l).map (fun r => r.getD j 0)).sum) ∧
    (((adata_to_cluster_expression X ncols labels false ad).X.getD i []).getD j 0 =
      ((selectRows X labels l).map (fun r => r.getD j 0)).sum /
      ((selectRows X labels l).length : ℚ)) := by
  obtain ⟨hi, hget⟩ := List.get?_eq_some.mp hvc
  have h := cluster_row_entry X ncols labels ad hW i j hi hj
  simp only [hget] at h
  exact h

/-- Witness for C10 on the dataset `X = [[1], [2], [3]]` with label
column `[0, 0, 1]`: the row of cluster 0 holds the sum `1 + 2 = 3` when
`scale = true` and the average `3 / 2` when `scale = false`. -/
theorem scale_true_sums_false_averages_witness :
    (((adata_to_cluster_expression [[1], [2], [3]] 1 ([0, 0, 1] : List ℕ)
        true true).X.getD 0 []).getD 0 0 =
      ((selectRows [[1], [2], [3]] ([0, 0, 1] : List ℕ) 0).map (fun r => r.getD 0 0)).sum) ∧
    (((adata_to_cluster_expression [[1], [2], [3]] 1 ([0, 0, 1] : List ℕ)
        false true).X.getD 0 []).getD 0 0 =
      ((selectRows [[1], [2], [3]] ([0, 0, 1] : List ℕ) 0).map (fun r => r.getD 0 0)).sum /
      ((selectRows [[1], [2], [3]] ([0, 0, 1] : List ℕ) 0).length : ℚ)) :=
  scale_true_sums_false_averages [[1], [2], [3]] 1 [0, 0, 1] true (by decide) 0 0 0 (2 / 3)
    (by norm_num [value_counts_norm, uniques, List.insertionSort, List.orderedInsert])
    (by decide)

end Tangram
